import Mathlib

/-!
# Verification of the book_tracker Load → Transform → Summary pipeline

Shallow embedding of the core of the `book_tracker` repository:

* `elt/load.py` — the record ledger (`log_record_if_new`) and the `load` stage;
* `elt/transform.py` — the `transform` stage in its direct (non-file) mode;
* `manipulation/summary.py` — `get_measures`, the metrics computation;
* `general_schema_v2.py` — the consolidated script, whose embedded copy of
  `get_measures` differs from `manipulation/summary.py` (it sorts the
  last-completed row by `end_date`, defines `new_entries` in the
  no-new-entries branch, and formats the feedback line without the broken
  `Index.iloc` access).  It is embedded here as `get_measures_v2`.

Modelling conventions:

* pandas cell values are the inductive `Cell`: strings, exact rationals
  (standing for the float values; floats are modelled by `ℚ`, with `+inf`,
  `-inf` and `NaN`/`NaT`/null as separate constructors), and dates as
  integer day numbers (timestamps carry no time-of-day in the model, so
  `(end - start).dt.days` is exact integer subtraction).
* a DataFrame is an ordered association list of named columns of cells
  (`Frame`); rows of the *transformed* books table, whose schema is fixed,
  are also given a typed form (`Book`) for the metrics computation.
* Python exceptions are the `PyErr` type and fallible code returns
  `Except PyErr _`.  `numpy`/pandas float division never raises: division
  by zero yields `±inf` (or `NaN` for `0/0`), which the model reproduces.
* mutation of DataFrames is modelled for the transform stage with an
  explicit heap of frames (`Heap`); `df.copy()` allocates a fresh cell and
  column assignments write through a reference, so aliasing and in-place
  mutation are observable.
* filesystem state touched by the load stage (directories, the ledger file
  `raw_records.csv`, snapshot CSVs) is the explicit record `FS`.
* `np.round(x, 2)` is modelled as exact round-half-to-even on hundredths
  (`round2`).
-/

namespace BookTracker

/-- A pandas cell value: a string, a (rational) number, a date given as an
integer day number, null (`NaN`/`NaT`/`None`), or a floating infinity. -/
inductive Cell where
  | str (s : String)
  | num (q : ℚ)
  | date (d : ℤ)
  | null
  | inf
  | ninf
deriving DecidableEq, Repr

/-- The Python error classes raised by the pipeline (`elt/exceptions.py`
plus the built-in exception classes that actually occur in the code). -/
inductive PyErr where
  | valueError (msg : String)
  | keyError
  | indexError
  | attributeError
  | nameError
  | extractionError
  | transformationError
  | loadError
deriving DecidableEq, Repr

/-- `np.round(q, 2)`: round to 2 decimal places, ties to even
(banker's rounding, as numpy does). -/
def round2 (q : ℚ) : ℚ :=
  let s := q * 100
  let f := ⌊s⌋
  let r : ℤ := if s - (f : ℚ) = 1 / 2 then (if f % 2 = 0 then f else f + 1) else round s
  (r : ℚ) / 100

/-- Addition of float cells (used by `Series.mean`): `NaN` is absorbing,
`inf + (-inf)` is `NaN`, infinities otherwise absorb finite values. -/
def cellAdd : Cell → Cell → Cell
  | Cell.num a, Cell.num b => Cell.num (a + b)
  | Cell.inf, Cell.ninf => Cell.null
  | Cell.ninf, Cell.inf => Cell.null
  | Cell.inf, Cell.num _ => Cell.inf
  | Cell.num _, Cell.inf => Cell.inf
  | Cell.inf, Cell.inf => Cell.inf
  | Cell.ninf, Cell.num _ => Cell.ninf
  | Cell.num _, Cell.ninf => Cell.ninf
  | Cell.ninf, Cell.ninf => Cell.ninf
  | _, _ => Cell.null

/-- Float-cell division with numpy semantics: division by zero yields
`±inf` (`NaN` for `0/0`) and never raises; `NaN` propagates. -/
def cellDiv : Cell → Cell → Cell
  | Cell.num a, Cell.num b =>
      if b = 0 then
        (if 0 < a then Cell.inf else if a < 0 then Cell.ninf else Cell.null)
      else Cell.num (a / b)
  | Cell.num _, Cell.inf => Cell.num 0
  | Cell.num _, Cell.ninf => Cell.num 0
  | Cell.inf, Cell.num b => if b < 0 then Cell.ninf else Cell.inf
  | Cell.ninf, Cell.num b => if b < 0 then Cell.inf else Cell.ninf
  | _, _ => Cell.null

/-- `Series.round(2)` applied cell-wise: rounds finite numbers, leaves
`NaN` and `±inf` unchanged. -/
def cellRound2 : Cell → Cell
  | Cell.num q => Cell.num (round2 q)
  | c => c

/-- `(end_date - start_date).dt.days` for one row: defined when both cells
are dates, `NaN` when either is `NaT` (dates are day numbers, so the whole
day difference is exact subtraction). -/
def cellDaysDiff : Cell → Cell → Cell
  | Cell.date e, Cell.date s => Cell.num ((e - s : ℤ) : ℚ)
  | _, _ => Cell.null

/-- `end_date.replace("", np.nan)` applied cell-wise (`transform.py`
line 98): exactly the empty string becomes null. -/
def replaceEmptyCell : Cell → Cell
  | Cell.str "" => Cell.null
  | c => c

/-- `pd.to_numeric(·, errors="coerce")` applied cell-wise
(`transform.py` line 103): numbers pass through, anything non-numeric
becomes null rather than raising.  (Numeric source values are modelled as
`num` cells already; a `str` cell stands for a non-parseable value.) -/
def toNumericCoerce : Cell → Cell
  | Cell.num q => Cell.num q
  | Cell.inf => Cell.inf
  | Cell.ninf => Cell.ninf
  | _ => Cell.null

/-- `pd.to_datetime` applied cell-wise: parsed dates are modelled as
`date` cells already, `NaT`/null passes through, and any remaining string
stands for a non-parseable value, which raises. -/
def toDatetimeCell : Cell → Except PyErr Cell
  | Cell.date d => Except.ok (Cell.date d)
  | Cell.null => Except.ok Cell.null
  | _ => Except.error (PyErr.valueError "could not parse as datetime")

/-- `pd.to_datetime` applied to a whole column. -/
def toDatetimeCol (col : List Cell) : Except PyErr (List Cell) :=
  col.mapM toDatetimeCell

/-- A DataFrame: an ordered association list of named columns. -/
def Frame := List (String × List Cell)
deriving DecidableEq, Repr

/-- Column selection `df[name]`; `none` models a `KeyError`. -/
def getCol (f : Frame) (n : String) : Option (List Cell) :=
  (List.find? (fun p => p.1 == n) f).map (fun p => p.2)

/-- Column selection that raises `KeyError` when the column is absent. -/
def getColE (f : Frame) (n : String) : Except PyErr (List Cell) :=
  match getCol f n with
  | some c => Except.ok c
  | none => Except.error PyErr.keyError

/-- Column assignment `df[name] = col`: replaces the column in place if it
exists, otherwise appends it as the last column. -/
def setCol : Frame → String → List Cell → Frame
  | [], n, col => [(n, col)]
  | (m, c) :: rest, n, col =>
      if m == n then (m, col) :: rest else (m, c) :: setCol rest n col

/-- `DataFrame.empty`: true when there are no columns or no rows. -/
def frameEmpty : Frame → Bool
  | [] => true
  | (_, col) :: _ => col.isEmpty

/-- `DataFrame.shape[0]`: the number of rows. -/
def nRows : Frame → ℕ
  | [] => 0
  | (_, col) :: _ => col.length

/-- The heap of live DataFrame objects; a Python variable holding a
DataFrame is an index into it. -/
abbrev Heap := List Frame

/-- Write a column through a DataFrame reference. -/
def setColAt (h : Heap) (r : ℕ) (n : String) (col : List Cell) : Heap :=
  h.set r (setCol (h.getD r []) n col)

/-- The sequence of column assignments performed by `transform` in direct
mode on the copied books frame (`elt/transform.py` lines 98-109), one
entry per source statement, in source order:
line 98 (replace `""` by null in `end_date`), lines 99-100 (`to_datetime`
on `start_date` then `end_date`), line 103 (`to_numeric` coercion of
`score`), lines 106-107 (`days`), lines 108-109 (`pages_per_day`). -/
def colPrograms : List (String × (Frame → Except PyErr (List Cell))) :=
  [ ("end_date", fun f => (getColE f "end_date").map (List.map replaceEmptyCell)),
    ("start_date", fun f => (getColE f "start_date").bind toDatetimeCol),
    ("end_date", fun f => (getColE f "end_date").bind toDatetimeCol),
    ("score", fun f => (getColE f "score").map (List.map toNumericCoerce)),
    ("days", fun f =>
      (getColE f "end_date").bind (fun e =>
        (getColE f "start_date").map (fun s => List.zipWith cellDaysDiff e s))),
    ("pages_per_day", fun f =>
      (getColE f "total_pages").bind (fun tp =>
        (getColE f "days").map (fun d =>
          (List.zipWith cellDiv tp d).map cellRound2))) ]

/-- Run the column assignments through the reference `tRef`, stopping at
the first error (which `transform` turns into a `TransformationError`). -/
def runPrograms (h : Heap) (tRef : ℕ) :
    List (String × (Frame → Except PyErr (List Cell))) → Except PyErr Heap
  | [] => Except.ok h
  | (n, p) :: rest =>
      match p (h.getD tRef []) with
      | Except.error e => Except.error e
      | Except.ok col => runPrograms (setColAt h tRef n col) tRef rest

/-- `pd.read_csv(directory + "raw_records.csv", parse_dates=["date"])`
(`transform.py` lines 116-119): parse the `date` column of the records
frame read from disk. -/
def parseRecordsFrame (rc : Frame) : Except PyErr Frame :=
  (getColE rc "date").bind (fun col =>
    (toDatetimeCol col).map (fun col2 => setCol rc "date" col2))

/-- `transform` in direct (non-file) mode, `elt/transform.py` lines
91-125: copy the raw books frame (line 96), run the column assignments on
the copy, parse the records frame read from disk (passed here as
`raw_records`), and return the copy, the *unchanged* consolidate input and
the parsed records.  Any exception is re-raised as a
`TransformationError` (lines 123-125); the partially written copy is then
unreachable, so the heap is reported at the allocation point. -/
def transformDirect (h : Heap) (booksRef consRef : ℕ) (raw_records : Frame) :
    Heap × Except PyErr (ℕ × ℕ × Frame) :=
  match runPrograms (h ++ [h.getD booksRef []]) h.length colPrograms with
  | Except.error _ =>
      (h ++ [h.getD booksRef []], Except.error PyErr.transformationError)
  | Except.ok h2 =>
      match parseRecordsFrame raw_records with
      | Except.error _ => (h2, Except.error PyErr.transformationError)
      | Except.ok rec2 => (h2, Except.ok (h.length, consRef, rec2))

/-! ## The record ledger and the load stage (`elt/load.py`) -/

/-- A ledger entry of `raw_records.csv`: `(date, records_current)`.
Timestamps are modelled as integers. -/
abbrev Entry := ℤ × ℤ

/-- The `records_current` value of the last ledger entry, if any
(`existing["records_current"].iloc[-1]`). -/
def lastCount (l : List Entry) : Option ℤ :=
  l.getLast?.map (fun p => p.2)

/-- `log_record_if_new` (`elt/load.py` lines 12-41), acting on the content
of `raw_records.csv`: append `(today, current_count)` when the ledger is
empty or its last count differs from `current_count`, otherwise leave the
ledger unchanged. -/
def log_record_if_new (l : List Entry) (today current_count : ℤ) : List Entry :=
  if l.isEmpty ∨ lastCount l ≠ some current_count then l ++ [(today, current_count)]
  else l

/-- No two consecutive ledger entries carry the same count. -/
def adjDistinct : List Entry → Bool
  | [] => true
  | [_] => true
  | a :: b :: rest => (a.2 != b.2) && adjDistinct (b :: rest)

/-- A dynamically typed Python value, for `isinstance`-checked
parameters. -/
inductive PyVal where
  | str (s : String)
  | int (n : ℤ)
  | bool (b : Bool)
deriving DecidableEq, Repr

/-- The filesystem state the load stage touches: the set of existing
directories, the ledger file `raw_records.csv` of each directory (present
with its list of entries, or absent), and the snapshot CSV paths
written. -/
structure FS where
  dirs : List String
  ledgers : List (String × List Entry)
  snapshots : List String
deriving DecidableEq, Repr

/-- The content of `directory/raw_records.csv`, if the file exists. -/
def lookupLedger (fs : FS) (d : String) : Option (List Entry) :=
  (List.find? (fun p => p.1 == d) fs.ledgers).map (fun p => p.2)

/-- Overwrite the ledger file of directory `d`. -/
def updateLedger (ls : List (String × List Entry)) (d : String) (l : List Entry) :
    List (String × List Entry) :=
  ls.map (fun p => if p.1 == d then (p.1, l) else p)

/-- `load` (`elt/load.py` lines 44-124).  In source order: type-check
`directory` (lines 79-81) and `save_df` (lines 82-84); create the
directory if absent (lines 87-88); reject an empty books or consolidate
frame (lines 91-96); create an empty `raw_records.csv` on first use
(lines 99-102); optionally snapshot the raw frames (lines 109-116); and
append to the ledger via `log_record_if_new` (lines 119-124).  `today`
models `pd.Timestamp.now()`. -/
def load (fs : FS) (directory : PyVal) (raw_books_current raw_consolidate : Frame)
    (save_df : PyVal) (today : ℤ) : FS × Except PyErr Unit :=
  match directory with
  | PyVal.str d =>
      match save_df with
      | PyVal.bool b =>
          let fs1 := if d ∈ fs.dirs then fs else { fs with dirs := d :: fs.dirs }
          if frameEmpty raw_books_current then
            (fs1, Except.error (PyErr.valueError "Empty DataFrame: books_current. Can't proceed."))
          else if frameEmpty raw_consolidate then
            (fs1, Except.error (PyErr.valueError "Empty DataFrame: consolidate. Can't proceed."))
          else
            let fs2 := if (lookupLedger fs1 d).isSome then fs1
                       else { fs1 with ledgers := (d, []) :: fs1.ledgers }
            let current_count : ℤ := nRows raw_books_current
            let snaps := (d ++ "/raw_books_current.csv") ::
                         (d ++ "/raw_consolidate.csv") :: fs2.snapshots
            let fs3 := if b then { fs2 with snapshots := snaps } else fs2
            let newLedger :=
              log_record_if_new ((lookupLedger fs3 d).getD []) today current_count
            let fs4 := { fs3 with ledgers := updateLedger fs3.ledgers d newLedger }
            (fs4, Except.ok ())
      | _ => (fs, Except.error (PyErr.valueError "The parameter to save the DataFrame must be a bool."))
  | _ => (fs, Except.error (PyErr.valueError "A valid directory is a string."))

/-! ## The metrics computation (`manipulation/summary.py` and the copy of
`summary.py` embedded in `general_schema_v2.py`)

The transformed books table has a fixed schema, so its rows are given the
typed form `Book`.  `days` is the float column computed by the transform
stage (`null` or a whole number), `pages_per_day` likewise (it can also be
`±inf`, hence a `Cell`); dates are integer day numbers. -/

/-- A row of the transformed current-books table. -/
structure Book where
  book_name : String
  author : String
  status : String
  start_date : ℤ
  end_date : Option ℤ
  total_pages : ℤ
  score : Option ℚ
  year : ℤ
  days : Option ℤ
  pages_per_day : Cell
deriving DecidableEq, Repr

/-- An `Option ℤ` column value as a float cell. -/
def optIntCell : Option ℤ → Cell
  | none => Cell.null
  | some n => Cell.num (n : ℚ)

/-- `Series.dropna().mean()`: drop nulls and average what remains (`NaN`
on an empty series, as pandas returns). -/
def meanC (l : List Cell) : Cell :=
  let v := l.filter (fun c => c ≠ Cell.null)
  if v.isEmpty then Cell.null
  else cellDiv (v.foldl cellAdd (Cell.num 0)) (Cell.num (v.length : ℚ))

/-- Stable insertion into a sorted list: `a` goes before the first `b`
with `le a b`. -/
def insSorted (le : Book → Book → Bool) (a : Book) : List Book → List Book
  | [] => [a]
  | b :: bs => if le a b then a :: b :: bs else b :: insSorted le a bs

/-- Stable insertion sort (models pandas sorts; tie order is modelled as
stable, i.e. original order). -/
def isort (le : Book → Book → Bool) : List Book → List Book
  | [] => []
  | x :: xs => insSorted le x (isort le xs)

/-- `DataFrame.tail(n)` with pandas semantics for every integer `n`:
the last `n` rows for `n > 0`, the empty frame for `n = 0`, and all rows
except the first `|n|` for `n < 0` (`tail` is `iloc[-n:]`). -/
def pdTail (n : ℤ) (l : List Book) : List Book :=
  if n = 0 then []
  else if 0 < n then l.drop (l.length - n.toNat)
  else l.drop (-n).toNat

/-- `sub.nlargest(3, "score")` (`summary.py` line 107): rows with null
score are dropped, the rest are ranked by score descending (ties keeping
the first occurrences), truncated to 3. -/
def nlargestScore (n : ℕ) (l : List Book) : List Book :=
  (isort (fun a b => b.score.getD 0 ≤ a.score.getD 0)
      (l.filter (fun b => b.score.isSome))).take n

/-- Ascending comparison on `end_date` with nulls last
(`sort_values(by="end_date")`, `na_position="last"`). -/
def endDateLe (a b : Book) : Bool :=
  match a.end_date, b.end_date with
  | some x, some y => x ≤ y
  | _, none => true
  | none, some _ => false

/-- `last` as computed by `manipulation/summary.py` lines 110-113: the
Completed rows of the year subset, *positional* `tail(1)` — no sort. -/
def lastRowsSummary (sub : List Book) : List Book :=
  pdTail 1 (sub.filter (fun b => b.status == "Completed"))

/-- `last` as computed by the `general_schema_v2.py` copy of
`get_measures` (lines 497-500): the Completed rows of the year subset,
sorted ascending by `end_date`, then `tail(1)`. -/
def lastRowsV2 (sub : List Book) : List Book :=
  pdTail 1 (isort endDateLe (sub.filter (fun b => b.status == "Completed")))

/-- Minimum of the `year` column (meaningful only for a nonempty table;
`int(...min())` on an empty table raises, which the callers model). -/
def minYear : List Book → ℤ
  | [] => 0
  | b :: bs => bs.foldl (fun m x => min m x.year) b.year

/-- Maximum of the `year` column. -/
def maxYear : List Book → ℤ
  | [] => 0
  | b :: bs => bs.foldl (fun m x => max m x.year) b.year

/-- Year clamping (`summary.py` lines 82-86): a requested year outside
`[min, max]` is replaced by the maximum year available, with only an
informational log message. -/
def resolveYear (books : List Book) (year : ℤ) : ℤ :=
  if year < minYear books ∨ year > maxYear books then maxYear books else year

/-- `new_entries` as computed by the v2 variant (line 510):
`books.tail(diff)[["book_name", "author"]]`. -/
def newEntriesV2 (books : List Book) (diff : ℤ) : List (String × String) :=
  (pdTail diff books).map (fun b => (b.book_name, b.author))

/-- The result dictionary of `get_measures` (its keys, in order). -/
structure MResults where
  overall_total : ℕ
  total_current : ℕ
  ongoing : ℕ
  dropped : ℕ
  mean_pages_per_day : Cell
  mean_time_reading : Cell
  mean_pages_per_day_current : Cell
  mean_time_reading_current : Cell
  best : List (String × String × Option ℚ)
  last : List (String × String × Option ℚ × Option ℤ)
  days_since_last : Cell
  feedback_new : String
  new_entries : List (String × String)
deriving DecidableEq, Repr

deriving instance DecidableEq for Except

set_option linter.unusedVariables false in
/-- The body of `manipulation/summary.py`'s `get_measures` (lines
88-142) after year resolution, with `y` the resolved year and `today`
modelling `pd.to_datetime("today")`.  Three slips in the source make every
path raise:
* line 115 indexes `last["end_date"].iloc[0]`, an `IndexError` when no
  row of the year subset is Completed;
* line 120 formats `transformed_records.index.iloc[-2]`, but a pandas
  `Index` has no attribute `iloc`, an `AttributeError` whenever the
  ledger history has at least 2 entries;
* the `else` branch (lines 122-123) assigns only `feedback_new`, so
  building the result dictionary (line 139) raises `UnboundLocalError`
  (a `NameError`) on `new_entries` whenever the history has fewer than 2
  entries. -/
def measuresBody (books : List Book) (consolidateCount : ℕ) (records : List Entry)
    (today : ℤ) (y : ℤ) : Except PyErr MResults :=
  let overall_total := consolidateCount + (books.filter (fun b => b.status == "Completed")).length
  let total_current := (books.filter (fun b => b.status == "Completed" && b.year == y)).length
  let ongoing := (books.filter (fun b => b.status == "Ongoing")).length
  let dropped := (books.filter (fun b => b.status == "Dropped")).length
  let mean_pages_per_day := cellRound2 (meanC (books.map (fun b => b.pages_per_day)))
  let mean_time_reading := cellRound2 (meanC (books.map (fun b => optIntCell b.days)))
  let sub := books.filter (fun b => b.year == y)
  let mean_pages_per_day_current := cellRound2 (meanC (sub.map (fun b => b.pages_per_day)))
  let mean_time_reading_current := cellRound2 (meanC (sub.map (fun b => optIntCell b.days)))
  let best := (nlargestScore 3 sub).map (fun b => (b.book_name, b.author, b.score))
  match lastRowsSummary sub with
  | [] => Except.error PyErr.indexError
  | _ :: _ =>
      if 2 ≤ records.length then Except.error PyErr.attributeError
      else Except.error PyErr.nameError

/-- `get_measures` of `manipulation/summary.py` (lines 8-142): validate
and resolve the year, then run the body.  `int(...["year"].min())` on an
empty table raises a `ValueError` (line 75); `year` is an integer in the
embedding, so the `isinstance` check of lines 78-80 cannot fire. -/
def get_measures (books : List Book) (consolidateCount : ℕ) (records : List Entry)
    (year : ℤ) (today : ℤ) : Except PyErr MResults :=
  if books.isEmpty then
    Except.error (PyErr.valueError "cannot convert float NaN to integer")
  else measuresBody books consolidateCount records today (resolveYear books year)

/-- The body of the `get_measures` copy embedded in
`general_schema_v2.py` (lines 460-532) after year resolution.  It differs
from `manipulation/summary.py` in three places: `last` is sorted by
`end_date` before `tail(1)` (lines 497-500); the feedback line formats
`last["end_date"].iloc[-1]` (formatting of the day number is abstracted
to `toString`; `strftime` on `NaT` raises a `ValueError`); and the `else`
branch assigns an empty `new_entries` (line 513).  Line 502 still raises
`IndexError` when no row of the year subset is Completed. -/
def measuresBodyV2 (books : List Book) (consolidateCount : ℕ) (records : List Entry)
    (today : ℤ) (y : ℤ) : Except PyErr MResults :=
  let overall_total := consolidateCount + (books.filter (fun b => b.status == "Completed")).length
  let total_current := (books.filter (fun b => b.status == "Completed" && b.year == y)).length
  let ongoing := (books.filter (fun b => b.status == "Ongoing")).length
  let dropped := (books.filter (fun b => b.status == "Dropped")).length
  let mean_pages_per_day := cellRound2 (meanC (books.map (fun b => b.pages_per_day)))
  let mean_time_reading := cellRound2 (meanC (books.map (fun b => optIntCell b.days)))
  let sub := books.filter (fun b => b.year == y)
  let mean_pages_per_day_current := cellRound2 (meanC (sub.map (fun b => b.pages_per_day)))
  let mean_time_reading_current := cellRound2 (meanC (sub.map (fun b => optIntCell b.days)))
  let best := (nlargestScore 3 sub).map (fun b => (b.book_name, b.author, b.score))
  match lastRowsV2 sub with
  | [] => Except.error PyErr.indexError
  | r :: _ =>
      let last := [(r.book_name, r.author, r.score, r.end_date)]
      let days_since_last :=
        match r.end_date with
        | some e => Cell.num ((today - e : ℤ) : ℚ)
        | none => Cell.null
      if 2 ≤ records.length then
        let diff : ℤ := (records.getD (records.length - 1) (0, 0)).2 -
                        (records.getD (records.length - 2) (0, 0)).2
        match r.end_date with
        | none => Except.error (PyErr.valueError "NaTType does not support strftime")
        | some e =>
            let feedback_new := "New entries since " ++ toString e ++ ": " ++ toString diff ++ "."
            Except.ok
              { overall_total := overall_total, total_current := total_current,
                ongoing := ongoing, dropped := dropped,
                mean_pages_per_day := mean_pages_per_day,
                mean_time_reading := mean_time_reading,
                mean_pages_per_day_current := mean_pages_per_day_current,
                mean_time_reading_current := mean_time_reading_current,
                best := best, last := last, days_since_last := days_since_last,
                feedback_new := feedback_new,
                new_entries := newEntriesV2 books diff }
      else
        Except.ok
          { overall_total := overall_total, total_current := total_current,
            ongoing := ongoing, dropped := dropped,
            mean_pages_per_day := mean_pages_per_day,
            mean_time_reading := mean_time_reading,
            mean_pages_per_day_current := mean_pages_per_day_current,
            mean_time_reading_current := mean_time_reading_current,
            best := best, last := last, days_since_last := days_since_last,
            feedback_new := "No new entries to show.",
            new_entries := [] }

/-- The `get_measures` copy embedded in `general_schema_v2.py` (lines
394-532): validate and resolve the year, then run the v2 body. -/
def get_measures_v2 (books : List Book) (consolidateCount : ℕ) (records : List Entry)
    (year : ℤ) (today : ℤ) : Except PyErr MResults :=
  if books.isEmpty then
    Except.error (PyErr.valueError "cannot convert float NaN to integer")
  else measuresBodyV2 books consolidateCount records today (resolveYear books year)

/-! ## Concrete inputs used by counterexamples and witnesses -/

/-- A one-row raw books frame whose book started and ended the same day
(`days = 0`) with 300 pages. -/
def frameDayZero : Frame :=
  [ ("book_name", [Cell.str "A"]), ("author", [Cell.str "X"]),
    ("status", [Cell.str "Completed"]), ("start_date", [Cell.date 10]),
    ("end_date", [Cell.date 10]), ("total_pages", [Cell.num 300]),
    ("score", [Cell.num 9]), ("year", [Cell.num 2025]) ]

/-- A nonempty consolidate frame. -/
def frameConsDemo : Frame := [("total", [Cell.num 5])]

/-- A one-entry records frame as read from `raw_records.csv`. -/
def frameRecsDemo : Frame :=
  [("date", [Cell.date 1]), ("records_current", [Cell.num 1])]

/-- A raw books frame with every column present and zero rows. -/
def emptyBooksFrame : Frame :=
  [ ("book_name", []), ("author", []), ("status", []), ("start_date", []),
    ("end_date", []), ("total_pages", []), ("score", []), ("year", []) ]

/-- A consolidate frame with zero rows. -/
def emptyConsFrame : Frame := [("total", [])]

/-- A records frame with zero rows (the ledger file as first created). -/
def emptyRecordsFrame : Frame := [("date", []), ("records_current", [])]

/-- A simple completed 2025 book, indexed for building tables. -/
def mkBook (i : ℕ) : Book :=
  { book_name := "b" ++ toString i, author := "a" ++ toString i,
    status := "Completed", start_date := 0, end_date := some (i : ℤ),
    total_pages := 100, score := some (i : ℚ), year := 2025,
    days := some 10, pages_per_day := Cell.num 10 }

/-- A 13-row transformed books table (the table of the spec's new-entry
example). -/
def books13 : List Book := (List.range 13).map mkBook

/-- One completed 2025 book. -/
def bookCompleted : Book := mkBook 0

/-- One ongoing 2025 book (no end date, no derived fields). -/
def bookOngoing : Book :=
  { mkBook 1 with status := "Ongoing", end_date := none, days := none,
                  pages_per_day := Cell.null, score := none }

/-- Completed book `A`, finished on day 200 — the *later* finisher. -/
def bookA : Book := { mkBook 2 with book_name := "A", end_date := some 200 }

/-- Completed book `B`, finished on day 100 — the *earlier* finisher. -/
def bookB : Book := { mkBook 3 with book_name := "B", end_date := some 100 }

/-! ## Claims -/

/-- Claim C1, counterexample.  Running the direct-mode transform on a
one-row table whose book started and ended on the same day (`days = 0`)
with `total_pages = 300` puts `+inf` — not null — in `pages_per_day`:
the claim that `pages_per_day` is null whenever `days` is zero, and that
the `days = 0` case produces no infinity, is false on the code. -/
theorem c1_days_zero_gives_inf :
    getCol ((transformDirect [frameDayZero, frameConsDemo] 0 1 frameRecsDemo).1.getD 2 [])
        "days" = some [Cell.num 0] ∧
    getCol ((transformDirect [frameDayZero, frameConsDemo] 0 1 frameRecsDemo).1.getD 2 [])
        "pages_per_day" = some [Cell.inf] ∧
    Cell.inf ≠ Cell.null := by
  decide

/-- Claim C1, amended.  Per row, `pages_per_day` (that is,
`(total_pages / days).round(2)`) is null exactly when `days` is null, or
`days = 0` and `total_pages = 0`; when `days = 0` and `total_pages` is
positive (resp. negative) it is `+inf` (resp. `-inf`) — the division
never raises but does produce an infinity; otherwise it is
`total_pages / days` rounded to two decimals, e.g. `300/10 = 30.00` and
`301/10 = 30.10`. -/
theorem c1_pages_per_day_characterisation (p : ℚ) :
    cellRound2 (cellDiv (Cell.num p) Cell.null) = Cell.null ∧
    cellRound2 (cellDiv (Cell.num p) (Cell.num 0)) =
      (if 0 < p then Cell.inf else if p < 0 then Cell.ninf else Cell.null) ∧
    (∀ q : ℚ, q ≠ 0 →
      cellRound2 (cellDiv (Cell.num p) (Cell.num q)) = Cell.num (round2 (p / q))) ∧
    round2 (300 / 10) = 30 ∧ round2 (301 / 10) = 301 / 10 := by
  refine ⟨rfl, ?_, ?_, ?_, ?_⟩
  · show cellRound2
        (if (0 : ℚ) = 0 then
          (if 0 < p then Cell.inf else if p < 0 then Cell.ninf else Cell.null)
         else Cell.num (p / 0)) = _
    rw [if_pos rfl]
    split_ifs <;> rfl
  · intro q hq
    simp [cellDiv, cellRound2, hq]
  · norm_num [round2, round_eq]
  · norm_num [round2, round_eq]

/-- Claim C1, witness for the amended theorem at concrete inputs. -/
theorem c1_pages_per_day_witness :
    cellRound2 (cellDiv (Cell.num 300) Cell.null) = Cell.null ∧
    cellRound2 (cellDiv (Cell.num 301) (Cell.num 10)) = Cell.num (round2 (301 / 10)) :=
  ⟨(c1_pages_per_day_characterisation 300).1,
   (c1_pages_per_day_characterisation 301).2.2.1 10 (by norm_num)⟩

/-- An all-zero result value, used to instantiate universally quantified
result statements at a concrete point. -/
def demoResults : MResults :=
  { overall_total := 0, total_current := 0, ongoing := 0, dropped := 0,
    mean_pages_per_day := Cell.null, mean_time_reading := Cell.null,
    mean_pages_per_day_current := Cell.null, mean_time_reading_current := Cell.null,
    best := [], last := [], days_since_last := Cell.null,
    feedback_new := "", new_entries := [] }

/-- Claim C2.  For *every* input whose ledger history has fewer than 2
entries, `manipulation/summary.py`'s `get_measures` does **not** return
normally — no input in the claim's scope yields a result: the `else`
branch of lines 122-123 assigns only `feedback_new`, so building the
result dictionary (line 139) raises `UnboundLocalError` on `new_entries`
(and on inputs with an empty table or no completed row in the year
subset, the earlier the `int(min)` ValueError of line 75 or the
`IndexError` of line 115 fires first).  Precisely: whenever the table is
nonempty and the year subset has a completed row, the raised error is the
`NameError`-class `UnboundLocalError`.  The `get_measures` copy in
`general_schema_v2.py` (which assigns an empty `new_entries` at line 513)
behaves as the claim states on that same scope: it returns normally with
`new_entries` empty and `feedback_new = "No new entries to show."`. -/
theorem c2_short_history_raises (books : List Book) (cc : ℕ) (records : List Entry)
    (year today : ℤ) (hrec : records.length < 2) :
    (∀ r : MResults, get_measures books cc records year today ≠ Except.ok r) ∧
    (books.isEmpty = false →
      lastRowsSummary (books.filter (fun b => b.year == resolveYear books year)) ≠ [] →
      get_measures books cc records year today = Except.error PyErr.nameError) ∧
    (books.isEmpty = false →
      lastRowsV2 (books.filter (fun b => b.year == resolveYear books year)) ≠ [] →
      (get_measures_v2 books cc records year today).map
          (fun r => (r.new_entries, r.feedback_new)) =
        Except.ok ([], "No new entries to show.")) := by
  have hnot : ¬ (2 ≤ records.length) := by omega
  refine ⟨?_, ?_, ?_⟩
  · intro r heq
    by_cases hb : books.isEmpty = true
    · simp [get_measures, hb] at heq
    · have hb' : books.isEmpty = false := eq_false_of_ne_true hb
      rcases hl : lastRowsSummary (books.filter (fun b => b.year == resolveYear books year))
        with _ | ⟨r0, rest⟩
      · simp [get_measures, measuresBody, hb', hl] at heq
      · simp [get_measures, measuresBody, hb', hl, hnot] at heq
  · intro hb hlast
    rcases hl : lastRowsSummary (books.filter (fun b => b.year == resolveYear books year))
      with _ | ⟨r0, rest⟩
    · exact absurd hl hlast
    · simp [get_measures, measuresBody, hb, hl, hnot]
  · intro hb hlast
    rcases hl : lastRowsV2 (books.filter (fun b => b.year == resolveYear books year))
      with _ | ⟨r0, rest⟩
    · exact absurd hl hlast
    · simp [get_measures_v2, measuresBodyV2, Except.map, hb, hl, hnot]

/-- Claim C2, witness at concrete inputs: with history of length 0 and of
length 1, `summary.py`'s `get_measures` raises the `NameError`-class
error (and returns no result), while the v2 copy returns empty
`new_entries` and the no-new-entries feedback. -/
theorem c2_short_history_witness :
    get_measures [bookCompleted] 5 [] 2025 100 ≠ Except.ok demoResults ∧
    get_measures [bookCompleted] 5 [] 2025 100 = Except.error PyErr.nameError ∧
    get_measures [bookCompleted] 5 [(0, 1)] 2025 100 = Except.error PyErr.nameError ∧
    (get_measures_v2 [bookCompleted] 5 [] 2025 100).map
        (fun r => (r.new_entries, r.feedback_new)) =
      Except.ok ([], "No new entries to show.") ∧
    (get_measures_v2 [bookCompleted] 5 [(0, 1)] 2025 100).map
        (fun r => (r.new_entries, r.feedback_new)) =
      Except.ok ([], "No new entries to show.") :=
  ⟨(c2_short_history_raises [bookCompleted] 5 [] 2025 100 (by decide)).1 demoResults,
   (c2_short_history_raises [bookCompleted] 5 [] 2025 100 (by decide)).2.1 rfl (by decide),
   (c2_short_history_raises [bookCompleted] 5 [(0, 1)] 2025 100 (by decide)).2.1 rfl (by decide),
   (c2_short_history_raises [bookCompleted] 5 [] 2025 100 (by decide)).2.2 rfl (by decide),
   (c2_short_history_raises [bookCompleted] 5 [(0, 1)] 2025 100 (by decide)).2.2 rfl (by decide)⟩

/-- Claim C3.  On the spec's own example — ledger history
`[(t1, 10), (t2, 13)]` and a 13-row table — `manipulation/summary.py`'s
`get_measures` raises `AttributeError` while formatting `feedback_new`
(line 120 accesses `transformed_records.index.iloc[-2]`, but a pandas
`Index` has no attribute `iloc`), before `new_entries` is ever computed.
The `general_schema_v2.py` copy returns `new_entries` equal to exactly
the last `diff = 3` rows in original order, as the claim states. -/
theorem c3_new_entries_attribute_error :
    get_measures books13 5 [(1, 10), (2, 13)] 2025 100 = Except.error PyErr.attributeError ∧
    (get_measures_v2 books13 5 [(1, 10), (2, 13)] 2025 100).map (fun r => r.new_entries) =
      Except.ok ((books13.drop 10).map (fun b => (b.book_name, b.author))) := by
  decide

/-- Claim C6.  `manipulation/summary.py` lines 110-113 compute `last` as a
positional `tail(1)` of the Completed rows *without sorting*: with the
year subset `[A (end day 200), B (end day 100)]` it returns `B`, not the
maximum-`end_date` row `A`, and reversing the input order flips the
answer.  The `general_schema_v2.py` copy sorts by `end_date` ascending
before `tail(1)` and returns `A` for either order, which is what the
claim (and the docstring, "most recently completed book") describes. -/
theorem c6_last_not_sorted_in_summary :
    lastRowsSummary [bookA, bookB] = [bookB] ∧
    lastRowsSummary [bookB, bookA] = [bookA] ∧
    lastRowsV2 [bookA, bookB] = [bookA] ∧
    lastRowsV2 [bookB, bookA] = [bookA] ∧
    bookA.end_date = some 200 ∧ bookB.end_date = some 100 := by
  decide

/-- Claim C7.  When no row of the year-scoped subset is Completed, `last`
is empty and line 115 (`last["end_date"].iloc[0]`; line 502 in the v2
copy) raises `IndexError` in *both* variants of `get_measures` — the
metrics computation does not return normally as the claim states. -/
theorem c7_no_completed_raises_index_error :
    get_measures [bookOngoing] 5 [] 2025 100 = Except.error PyErr.indexError ∧
    get_measures_v2 [bookOngoing] 5 [] 2025 100 = Except.error PyErr.indexError ∧
    bookOngoing.status = "Ongoing" := by
  decide

/-- The last count of a ledger after an append is the appended count. -/
theorem lastCount_concat (l : List Entry) (t c : ℤ) :
    lastCount (l ++ [(t, c)]) = some c := by
  simp [lastCount, List.getLast?_concat]

/-- After `log_record_if_new` with count `c`, the last ledger count is
`c` (either it was appended, or it was already there). -/
theorem lastCount_log_record (l : List Entry) (t c : ℤ) :
    lastCount (log_record_if_new l t c) = some c := by
  unfold log_record_if_new
  split
  · exact lastCount_concat l t c
  · rename_i h
    push_neg at h
    exact h.2

/-- `log_record_if_new` never returns an empty ledger. -/
theorem log_record_ne_nil (l : List Entry) (t c : ℤ) :
    (log_record_if_new l t c).isEmpty = false := by
  unfold log_record_if_new
  split
  · simp
  · rename_i h
    push_neg at h
    simpa using h.1

/-- `lastCount` ignores the head of a two-or-more-entry ledger. -/
theorem lastCount_cons_cons (a b : Entry) (l : List Entry) :
    lastCount (a :: b :: l) = lastCount (b :: l) := by
  simp [lastCount, List.getLast?_cons_cons]

/-- Appending an entry whose count differs from the current last count
preserves adjacent distinctness. -/
theorem adjDistinct_concat : ∀ (l : List Entry), adjDistinct l = true →
    ∀ (t c : ℤ), lastCount l ≠ some c → adjDistinct (l ++ [(t, c)]) = true := by
  intro l
  induction l with
  | nil => intro _ t c _; rfl
  | cons a rest ih =>
      cases rest with
      | nil =>
          intro _ t c hne
          have hac : a.2 ≠ c := by
            intro h2
            exact hne (by simp [lastCount, h2])
          simp [adjDistinct, hac]
      | cons b rest2 =>
          intro h t c hne
          rw [List.cons_append]
          have h1 : (a.2 != b.2) = true ∧ adjDistinct (b :: rest2) = true := by
            simpa [adjDistinct, Bool.and_eq_true] using h
          have hne2 : lastCount (b :: rest2) ≠ some c := by
            rw [← lastCount_cons_cons a b rest2]; exact hne
          have := ih h1.2 t c hne2
          rw [List.cons_append] at this ⊢
          simpa [adjDistinct, Bool.and_eq_true, h1.1] using this

/-- One `log_record_if_new` call preserves adjacent distinctness. -/
theorem adjDistinct_log_record (l : List Entry) (t c : ℤ)
    (h : adjDistinct l = true) : adjDistinct (log_record_if_new l t c) = true := by
  unfold log_record_if_new
  split
  · rename_i hcond
    rcases hcond with he | hne
    · rcases l with _ | ⟨a, rest⟩
      · rfl
      · simp at he
    · exact adjDistinct_concat l h t c hne
  · exact h

/-- Any sequence of `log_record_if_new` calls preserves adjacent
distinctness. -/
theorem adjDistinct_foldl (calls : List Entry) :
    ∀ (l : List Entry), adjDistinct l = true →
      adjDistinct (calls.foldl (fun acc p => log_record_if_new acc p.1 p.2) l) = true := by
  induction calls with
  | nil => intro l h; exact h
  | cons p rest ih =>
      intro l h
      exact ih (log_record_if_new l p.1 p.2) (adjDistinct_log_record l p.1 p.2 h)

/-- Claim C4, counterexample.  If the ledger already ends with count 5,
calling `log_record_if_new` twice in a row with count 5 appends *zero*
entries in total, not exactly one: the ledger `[(0, 5)]` is returned
unchanged by both calls. -/
theorem c4_double_call_can_append_zero :
    log_record_if_new (log_record_if_new [((0 : ℤ), (5 : ℤ))] 1 5) 2 5 = [(0, 5)] ∧
    (log_record_if_new (log_record_if_new [((0 : ℤ), (5 : ℤ))] 1 5) 2 5).length =
      [((0 : ℤ), (5 : ℤ))].length := by
  decide

/-- Claim C4, amended.  Calling `log_record_if_new` twice in a row with
the same count appends *at most* one entry: the second call is always a
no-op (the composite equals a single call); exactly one entry is appended
when the ledger was empty or its last count differed, and none when the
last count already equals the given count.  Starting from any ledger with
no two consecutive equal counts, any sequence of calls preserves that
invariant. -/
theorem c4_ledger_idempotence (l : List Entry) (t t' c : ℤ) :
    log_record_if_new (log_record_if_new l t c) t' c = log_record_if_new l t c ∧
    ((l.isEmpty = true ∨ lastCount l ≠ some c) →
      (log_record_if_new l t c).length = l.length + 1) ∧
    (lastCount l = some c → log_record_if_new l t c = l) ∧
    (adjDistinct l = true → adjDistinct (log_record_if_new l t c) = true) ∧
    (∀ calls : List Entry, adjDistinct l = true →
      adjDistinct (calls.foldl (fun acc p => log_record_if_new acc p.1 p.2) l) = true) := by
  refine ⟨?_, ?_, ?_, adjDistinct_log_record l t c, fun calls h => adjDistinct_foldl calls l h⟩
  · conv_lhs => rw [log_record_if_new]
    rw [if_neg]
    push_neg
    exact ⟨by simp [log_record_ne_nil], lastCount_log_record l t c⟩
  · intro hcond
    unfold log_record_if_new
    rw [if_pos (by simpa using hcond)]
    simp
  · intro hlast
    unfold log_record_if_new
    rw [if_neg]
    push_neg
    refine ⟨?_, hlast⟩
    intro he
    rw [List.isEmpty_iff] at he
    subst he
    simp [lastCount] at hlast

/-- Claim C4, witness for the amended theorem at concrete ledgers. -/
theorem c4_ledger_idempotence_witness :
    log_record_if_new (log_record_if_new ([] : List Entry) 7 3) 8 3 =
      log_record_if_new ([] : List Entry) 7 3 ∧
    (log_record_if_new ([] : List Entry) 7 3).length = ([] : List Entry).length + 1 ∧
    log_record_if_new ([((1 : ℤ), (3 : ℤ))] : List Entry) 7 3 = [(1, 3)] ∧
    adjDistinct (log_record_if_new ([((0 : ℤ), (5 : ℤ))] : List Entry) 7 3) = true :=
  ⟨(c4_ledger_idempotence [] 7 8 3).1,
   (c4_ledger_idempotence [] 7 8 3).2.1 (Or.inl rfl),
   (c4_ledger_idempotence [((1 : ℤ), (3 : ℤ))] 7 8 3).2.2.1 rfl,
   (c4_ledger_idempotence [((0 : ℤ), (5 : ℤ))] 7 8 3).2.2.2.1 rfl⟩

/-- The running minimum over years never exceeds the running maximum. -/
theorem foldl_min_le_foldl_max : ∀ (l : List Book) (a b : ℤ), a ≤ b →
    l.foldl (fun m x => min m x.year) a ≤ l.foldl (fun m x => max m x.year) b := by
  intro l
  induction l with
  | nil => intro a b h; exact h
  | cons x xs ih =>
      intro a b h
      exact ih _ _ (le_trans (min_le_left a x.year) (le_trans h (le_max_left b x.year)))

/-- For a nonempty table the minimum year is at most the maximum year. -/
theorem minYear_le_maxYear (books : List Book) (h : books ≠ []) :
    minYear books ≤ maxYear books := by
  cases books with
  | nil => exact absurd rfl h
  | cons b bs => exact foldl_min_le_foldl_max bs b.year b.year le_rfl

/-- Requesting the maximum year itself is in range, so it is not
clamped. -/
theorem resolveYear_max (books : List Book) (h : books ≠ []) :
    resolveYear books (maxYear books) = maxYear books := by
  unfold resolveYear
  rw [if_neg]
  push_neg
  exact ⟨not_lt.mp (not_lt.mpr (minYear_le_maxYear books h)), le_rfl⟩

/-- An out-of-range year resolves to the maximum year. -/
theorem resolveYear_out (books : List Book) (year : ℤ)
    (h : year < minYear books ∨ maxYear books < year) :
    resolveYear books year = maxYear books := if_pos h

/-- Claim C5.  For any input and any requested year outside
`[minYear, maxYear]`, both `get_measures` variants behave *identically*
to requesting the maximum year present: the year is clamped before any
computation (summary.py lines 82-86; v2 lines 468-473) and the clamping
itself produces no error — only an informational log line. -/
theorem c5_year_clamping (books : List Book) (cc : ℕ) (records : List Entry)
    (year today : ℤ) (hne : books ≠ [])
    (hout : year < minYear books ∨ maxYear books < year) :
    get_measures books cc records year today =
      get_measures books cc records (maxYear books) today ∧
    get_measures_v2 books cc records year today =
      get_measures_v2 books cc records (maxYear books) today := by
  unfold get_measures get_measures_v2
  rw [resolveYear_out books year hout, resolveYear_max books hne]
  exact ⟨rfl, rfl⟩

/-- Claim C5, witness: requesting 2030 on a table whose maximum year is
2025 equals requesting the maximum year, and (on the v2 variant, which
can return) the call yields a result, not an error. -/
theorem c5_year_clamping_witness :
    get_measures books13 5 [] 2030 100 = get_measures books13 5 [] (maxYear books13) 100 ∧
    get_measures_v2 books13 5 [] 2030 100 =
      get_measures_v2 books13 5 [] (maxYear books13) 100 ∧
    (get_measures_v2 books13 5 [] 2030 100).map (fun r => r.total_current) =
      Except.ok 13 :=
  ⟨(c5_year_clamping books13 5 [] 2030 100 (by decide) (by decide)).1,
   (c5_year_clamping books13 5 [] 2030 100 (by decide) (by decide)).2,
   by decide⟩

/-- Claim C8, counterexample.  `transform` performs *no* emptiness
validation: in direct mode, on a well-formed books table with zero rows
(and an empty consolidate table) it returns normally, with no
ValueError-class failure. -/
theorem c8_transform_accepts_empty :
    (transformDirect [emptyBooksFrame, emptyConsFrame] 0 1 emptyRecordsFrame).2 =
      Except.ok (2, 1, emptyRecordsFrame) ∧
    frameEmpty emptyBooksFrame = true ∧ frameEmpty emptyConsFrame = true := by
  decide

/-- Claim C8, amended.  The empty-dataset check lives in the *load*
stage, not in `transform`: `load` fails with a ValueError naming the
empty dataset (`books_current`, then `consolidate`, `elt/load.py` lines
91-96), while `transform` accepts empty inputs and returns normally. -/
theorem c8_empty_check_is_in_load :
    (∀ (fs : FS) (d : String) (cons : Frame) (b : Bool) (t : ℤ) (books : Frame),
      frameEmpty books = true →
      (load fs (PyVal.str d) books cons (PyVal.bool b) t).2 =
        Except.error (PyErr.valueError "Empty DataFrame: books_current. Can't proceed.")) ∧
    (∀ (fs : FS) (d : String) (books cons : Frame) (b : Bool) (t : ℤ),
      frameEmpty books = false → frameEmpty cons = true →
      (load fs (PyVal.str d) books cons (PyVal.bool b) t).2 =
        Except.error (PyErr.valueError "Empty DataFrame: consolidate. Can't proceed.")) ∧
    (transformDirect [emptyBooksFrame, emptyConsFrame] 0 1 emptyRecordsFrame).2 =
      Except.ok (2, 1, emptyRecordsFrame) := by
  refine ⟨?_, ?_, by decide⟩
  · intro fs d cons b t books hbooks
    simp [load, hbooks]
  · intro fs d books cons b t hbooks hcons
    simp [load, hbooks, hcons]

/-- Claim C8, witness for the amended theorem at concrete inputs. -/
theorem c8_empty_check_witness :
    (load ⟨[], [], []⟩ (PyVal.str "w") emptyBooksFrame frameConsDemo (PyVal.bool false) 0).2 =
      Except.error (PyErr.valueError "Empty DataFrame: books_current. Can't proceed.") ∧
    (load ⟨[], [], []⟩ (PyVal.str "w") frameConsDemo emptyConsFrame (PyVal.bool false) 0).2 =
      Except.error (PyErr.valueError "Empty DataFrame: consolidate. Can't proceed.") :=
  ⟨c8_empty_check_is_in_load.1 ⟨[], [], []⟩ "w" frameConsDemo false 0 emptyBooksFrame rfl,
   c8_empty_check_is_in_load.2.1 ⟨[], [], []⟩ "w" frameConsDemo emptyConsFrame false 0 rfl rfl⟩

/-- Claim C9, counterexample.  Calling `load` with an *empty* books
dataset and a directory that does not yet exist raises the
ValueError-class failure only *after* creating the directory
(`os.makedirs`, lines 87-88, runs before the emptiness check of lines
91-96): the returned filesystem contains the new directory `"d"`. -/
theorem c9_empty_check_after_makedirs :
    load ⟨[], [], []⟩ (PyVal.str "d") emptyBooksFrame frameConsDemo (PyVal.bool false) 0 =
      (⟨["d"], [], []⟩,
       Except.error (PyErr.valueError "Empty DataFrame: books_current. Can't proceed.")) := by
  decide

/-- Claim C9, amended.  Wrong-*type* parameters (`directory` not a
string, `save_df` not a bool) do fail before any filesystem effect; an
empty dataset — the books frame, or the consolidate frame with the books
frame nonempty — fails with the ValueError before the ledger file is
created, before any snapshot is written and before any row is appended,
but only *after* the target directory has been created when it was
absent. -/
theorem c9_load_validation_order (fs : FS) (directory : PyVal)
    (books cons : Frame) (sd : PyVal) (t : ℤ) :
    ((∀ s, directory ≠ PyVal.str s) →
      load fs directory books cons sd t =
        (fs, Except.error (PyErr.valueError "A valid directory is a string."))) ∧
    (∀ d, directory = PyVal.str d → (∀ b, sd ≠ PyVal.bool b) →
      load fs directory books cons sd t =
        (fs, Except.error (PyErr.valueError "The parameter to save the DataFrame must be a bool."))) ∧
    (∀ (d : String) (b : Bool), frameEmpty books = true →
      load fs (PyVal.str d) books cons (PyVal.bool b) t =
        ((if d ∈ fs.dirs then fs else { fs with dirs := d :: fs.dirs }),
         Except.error (PyErr.valueError "Empty DataFrame: books_current. Can't proceed.")) ∧
      (load fs (PyVal.str d) books cons (PyVal.bool b) t).1.ledgers = fs.ledgers ∧
      (load fs (PyVal.str d) books cons (PyVal.bool b) t).1.snapshots = fs.snapshots) ∧
    (∀ (d : String) (b : Bool), frameEmpty books = false → frameEmpty cons = true →
      load fs (PyVal.str d) books cons (PyVal.bool b) t =
        ((if d ∈ fs.dirs then fs else { fs with dirs := d :: fs.dirs }),
         Except.error (PyErr.valueError "Empty DataFrame: consolidate. Can't proceed.")) ∧
      (load fs (PyVal.str d) books cons (PyVal.bool b) t).1.ledgers = fs.ledgers ∧
      (load fs (PyVal.str d) books cons (PyVal.bool b) t).1.snapshots = fs.snapshots) := by
  refine ⟨?_, ?_, ?_, ?_⟩
  · intro hs
    cases directory with
    | str s => exact absurd rfl (hs s)
    | int n => rfl
    | bool b => rfl
  · intro d hd hb
    subst hd
    cases sd with
    | str s => rfl
    | int n => rfl
    | bool b => exact absurd rfl (hb b)
  · intro d b hbooks
    have heq : load fs (PyVal.str d) books cons (PyVal.bool b) t =
        ((if d ∈ fs.dirs then fs else { fs with dirs := d :: fs.dirs }),
         Except.error (PyErr.valueError "Empty DataFrame: books_current. Can't proceed.")) := by
      simp [load, hbooks]
    refine ⟨heq, ?_, ?_⟩ <;> rw [heq] <;> split <;> rfl
  · intro d b hbooks hcons
    have heq : load fs (PyVal.str d) books cons (PyVal.bool b) t =
        ((if d ∈ fs.dirs then fs else { fs with dirs := d :: fs.dirs }),
         Except.error (PyErr.valueError "Empty DataFrame: consolidate. Can't proceed.")) := by
      simp [load, hbooks, hcons]
    refine ⟨heq, ?_, ?_⟩ <;> rw [heq] <;> split <;> rfl

/-- Claim C9, witness for the amended theorem at concrete inputs. -/
theorem c9_load_validation_witness :
    load ⟨[], [], []⟩ (PyVal.int 3) emptyBooksFrame frameConsDemo (PyVal.bool false) 0 =
      (⟨[], [], []⟩, Except.error (PyErr.valueError "A valid directory is a string.")) ∧
    load ⟨[], [], []⟩ (PyVal.str "w2") frameConsDemo frameConsDemo (PyVal.int 1) 0 =
      (⟨[], [], []⟩,
       Except.error (PyErr.valueError "The parameter to save the DataFrame must be a bool.")) ∧
    (load ⟨[], [], []⟩ (PyVal.str "w2") emptyBooksFrame frameConsDemo (PyVal.bool true) 0).1.ledgers =
      ([] : List (String × List Entry)) ∧
    load ⟨[], [], []⟩ (PyVal.str "w3") frameConsDemo emptyConsFrame (PyVal.bool true) 0 =
      (⟨["w3"], [], []⟩,
       Except.error (PyErr.valueError "Empty DataFrame: consolidate. Can't proceed.")) ∧
    (load ⟨[], [], []⟩ (PyVal.str "w3") frameConsDemo emptyConsFrame (PyVal.bool true) 0).1.snapshots =
      ([] : List String) :=
  ⟨(c9_load_validation_order ⟨[], [], []⟩ (PyVal.int 3) emptyBooksFrame frameConsDemo
      (PyVal.bool false) 0).1 (fun _ h => PyVal.noConfusion h),
   (c9_load_validation_order ⟨[], [], []⟩ (PyVal.str "w2") frameConsDemo frameConsDemo
      (PyVal.int 1) 0).2.1 "w2" rfl (fun _ h => PyVal.noConfusion h),
   ((c9_load_validation_order ⟨[], [], []⟩ (PyVal.str "w2") emptyBooksFrame frameConsDemo
      (PyVal.bool true) 0).2.2.1 "w2" true rfl).2.1,
   ((c9_load_validation_order ⟨[], [], []⟩ (PyVal.str "w3") frameConsDemo emptyConsFrame
      (PyVal.bool true) 0).2.2.2 "w3" true rfl rfl).1,
   ((c9_load_validation_order ⟨[], [], []⟩ (PyVal.str "w3") frameConsDemo emptyConsFrame
      (PyVal.bool true) 0).2.2.2 "w3" true rfl rfl).2.2⟩

/-- Writing to heap cell `i` leaves every other cell unchanged. -/
theorem getD_set_ne (l : Heap) (i j : ℕ) (a : Frame) (h : i ≠ j) :
    (l.set i a).getD j [] = l.getD j [] := by
  simp [List.getD, List.getElem?_set_ne h]

/-- A column write through reference `r` leaves every other frame
unchanged. -/
theorem setColAt_getD_ne (h : Heap) (r i : ℕ) (n : String) (col : List Cell)
    (hne : r ≠ i) : (setColAt h r n col).getD i [] = h.getD i [] :=
  getD_set_ne h r i _ hne

/-- The transform's column assignments write only through the copied
reference `tRef`: every other heap cell is unchanged. -/
theorem runPrograms_preserves :
    ∀ (progs : List (String × (Frame → Except PyErr (List Cell)))) (h : Heap)
      (tRef : ℕ) (h' : Heap), runPrograms h tRef progs = Except.ok h' →
      ∀ i, i ≠ tRef → h'.getD i [] = h.getD i [] := by
  intro progs
  induction progs with
  | nil =>
      intro h tRef h' heq i hi
      simp only [runPrograms] at heq
      cases heq
      rfl
  | cons p rest ih =>
      intro h tRef h' heq i hi
      obtain ⟨n, pf⟩ := p
      simp only [runPrograms] at heq
      cases hp : pf (h.getD tRef []) with
      | error e => rw [hp] at heq; cases heq
      | ok col =>
          rw [hp] at heq
          rw [ih (setColAt h tRef n col) tRef h' heq i hi]
          exact setColAt_getD_ne h tRef i n col (fun he => hi he.symm)

/-- Cells left of an appended element are unchanged. -/
theorem getD_append_left (l l' : Heap) (i : ℕ) (h : i < l.length) :
    (l ++ l').getD i [] = l.getD i [] := by
  simp [List.getD, List.getElem?_append_left h]

/-- Claim C10.  In direct mode, `transform` allocates a copy of the books
frame (`.copy()`, line 96) at the fresh reference `h.length` and performs
every enrichment through that copy: the caller's books frame is unchanged
afterwards, the caller's consolidate frame is unchanged, and on success
the returned consolidate is the *same reference* that was passed in
(line 121 returns `raw_consolidate` itself). -/
theorem c10_transform_no_mutation (h : Heap) (booksRef consRef : ℕ) (rec : Frame)
    (hb : booksRef < h.length) (hc : consRef < h.length) :
    (transformDirect h booksRef consRef rec).1.getD booksRef [] = h.getD booksRef [] ∧
    (transformDirect h booksRef consRef rec).1.getD consRef [] = h.getD consRef [] ∧
    ((∃ rec2, (transformDirect h booksRef consRef rec).2 =
        Except.ok (h.length, consRef, rec2)) ∨
      (transformDirect h booksRef consRef rec).2 = Except.error PyErr.transformationError) := by
  have hb' : booksRef ≠ h.length := Nat.ne_of_lt hb
  have hc' : consRef ≠ h.length := Nat.ne_of_lt hc
  unfold transformDirect
  cases hrun : runPrograms (h ++ [h.getD booksRef []]) h.length colPrograms with
  | error e =>
      exact ⟨getD_append_left h _ booksRef hb, getD_append_left h _ consRef hc, Or.inr rfl⟩
  | ok h2 =>
      have hbp : h2.getD booksRef [] = h.getD booksRef [] := by
        rw [runPrograms_preserves colPrograms _ _ h2 hrun booksRef hb']
        exact getD_append_left h _ booksRef hb
      have hcp : h2.getD consRef [] = h.getD consRef [] := by
        rw [runPrograms_preserves colPrograms _ _ h2 hrun consRef hc']
        exact getD_append_left h _ consRef hc
      cases hpr : parseRecordsFrame rec with
      | error e => exact ⟨hbp, hcp, Or.inr rfl⟩
      | ok rec2 => exact ⟨hbp, hcp, Or.inl ⟨rec2, rfl⟩⟩

/-- Claim C10, witness: on a concrete two-frame heap the input books and
consolidate frames are bit-for-bit unchanged by the direct transform. -/
theorem c10_transform_no_mutation_witness :
    (transformDirect [frameDayZero, frameConsDemo] 0 1 frameRecsDemo).1.getD 0 [] =
      ([frameDayZero, frameConsDemo] : Heap).getD 0 [] ∧
    (transformDirect [frameDayZero, frameConsDemo] 0 1 frameRecsDemo).1.getD 1 [] =
      ([frameDayZero, frameConsDemo] : Heap).getD 1 [] :=
  ⟨(c10_transform_no_mutation [frameDayZero, frameConsDemo] 0 1 frameRecsDemo
      (by decide) (by decide)).1,
   (c10_transform_no_mutation [frameDayZero, frameConsDemo] 0 1 frameRecsDemo
      (by decide) (by decide)).2.1⟩

end BookTracker
